import Mathlib

/-!
Shallow embedding of the IIOT-Wafer-Manufacturing edge pipeline
(`src/edge_gateway.py`) and the dashboard's alert acknowledgment
(`src/dashboard.py`).

Numeric sensor readings, probabilities and the decision threshold are
embedded as rationals (`ℚ`); the comparisons the code performs are the
same order comparisons.  Database timestamps are abstract `Nat` ticks.
The opaque pickled artifact (`edge_model.pkl`) is a record of opaque
functions: label encoders become partial maps `String → Option ℤ`
(`none` models the `ValueError` sklearn raises on an unseen label), the
scaler an opaque `List ℚ → List ℚ`, and `model.predict_proba` an opaque
`List ℚ → Option ℚ` (`none` models an internal inference exception).
Python exceptions caught by a `try`/`except` block are modelled by
`Option`: a `none` reaching the boundary of the block takes the
`except` branch.
-/

/-- The decoded JSON payload of one MQTT telemetry message, as read by
`EdgeGateway.on_message` after `json.loads`.  All fields the gateway
accesses are present. -/
structure SensorReading where
  process_id : String
  timestamp : String
  production_line : String
  wafer_id : String
  chamber_temperature : ℚ
  gas_flow_rate : ℚ
  rf_power : ℚ
  etch_depth : ℚ
  rotation_speed : ℚ
  vacuum_pressure : ℚ
  stage_alignment_error : ℚ
  vibration_level : ℚ
  uv_exposure_intensity : ℚ
  particle_count : ℤ
  join_status : String
  actual_defect : ℤ
deriving Repr, DecidableEq

/-- The unpickled `model_package` loaded in `EdgeGateway.__init__`:
label encoders, scaler, feature-name order, opaque model, threshold. -/
structure ModelPackage where
  encTool : String → Option ℤ
  encJoin : String → Option ℤ
  feature_names : List String
  scale : List ℚ → List ℚ
  predictProba : List ℚ → Option ℚ
  threshold : ℚ

/-- The `features` dict built in `EdgeGateway.predict_defect` lines
89-109: ten numeric readings plus the two encoded categoricals. -/
def buildFeatures (s : SensorReading) (tool join : ℤ) : List (String × ℚ) :=
  [("Chamber_Temperature", s.chamber_temperature),
   ("Gas_Flow_Rate", s.gas_flow_rate),
   ("RF_Power", s.rf_power),
   ("Etch_Depth", s.etch_depth),
   ("Rotation_Speed", s.rotation_speed),
   ("Vacuum_Pressure", s.vacuum_pressure),
   ("Stage_Alignment_Error", s.stage_alignment_error),
   ("Vibration_Level", s.vibration_level),
   ("UV_Exposure_Intensity", s.uv_exposure_intensity),
   ("Particle_Count", (s.particle_count : ℚ)),
   ("Tool_Type", (tool : ℚ)),
   ("Join_Status", (join : ℚ))]

/-- The body of the `try` block of `EdgeGateway.predict_defect`:
encode categoricals, reindex the feature dict by `feature_names`
(pandas raises `KeyError` on a name the dict lacks, hence the
`lookup`), scale, call the model, threshold the probability.
`none` means an exception escaped to the `except` handler. -/
def predictCore (pkg : ModelPackage) (s : SensorReading) : Option (ℤ × ℚ) :=
  (pkg.encTool s.production_line).bind fun tool =>
  (pkg.encJoin s.join_status).bind fun join =>
  (pkg.feature_names.mapM fun n => (buildFeatures s tool join).lookup n).bind fun X =>
  (pkg.predictProba (pkg.scale X)).map fun proba =>
  (if pkg.threshold ≤ proba then (1 : ℤ) else 0, proba)

/-- `EdgeGateway.predict_defect`: any exception is caught and the
function returns the default `(0, 0.0)` (lines 123-125). -/
def predict_defect (pkg : ModelPackage) (s : SensorReading) : ℤ × ℚ :=
  match predictCore pkg s with
  | some r => r
  | none => (0, 0)

/-- One row of the `sensor_data` table, as inserted by
`EdgeGateway.store_to_database` lines 140-167. -/
structure SensorRow where
  process_id : String
  timestamp : String
  production_line : String
  wafer_id : String
  chamber_temperature : ℚ
  gas_flow_rate : ℚ
  rf_power : ℚ
  etch_depth : ℚ
  rotation_speed : ℚ
  vacuum_pressure : ℚ
  stage_alignment_error : ℚ
  vibration_level : ℚ
  uv_exposure_intensity : ℚ
  particle_count : ℤ
  join_status : String
  predicted_defect : ℤ
  defect_probability : ℚ
  actual_defect : ℤ
deriving Repr, DecidableEq

/-- One row of the `production_lines` table. -/
structure LineRow where
  line_name : String
  status : String
  current_wafer_id : Option String
  last_updated : Nat
deriving Repr, DecidableEq

/-- One row of the `alerts` table. -/
structure AlertRow where
  id : Nat
  production_line : String
  wafer_id : String
  alert_message : String
  defect_probability : ℚ
  created_at : Nat
  acknowledged : Bool
  acknowledged_at : Option Nat
deriving Repr, DecidableEq

/-- The durable store: the three tables the pipeline touches, plus the
serial counter behind the `alerts.id` column. -/
structure DB where
  sensor_data : List SensorRow
  production_lines : List LineRow
  alerts : List AlertRow
  nextAlertId : Nat
deriving Repr, DecidableEq

/-- The `sensor_data` row built from an event and its prediction
(the `INSERT INTO sensor_data` statement). -/
def mkSensorRow (s : SensorReading) (pred : ℤ) (proba : ℚ) : SensorRow :=
  { process_id := s.process_id
    timestamp := s.timestamp
    production_line := s.production_line
    wafer_id := s.wafer_id
    chamber_temperature := s.chamber_temperature
    gas_flow_rate := s.gas_flow_rate
    rf_power := s.rf_power
    etch_depth := s.etch_depth
    rotation_speed := s.rotation_speed
    vacuum_pressure := s.vacuum_pressure
    stage_alignment_error := s.stage_alignment_error
    vibration_level := s.vibration_level
    uv_exposure_intensity := s.uv_exposure_intensity
    particle_count := s.particle_count
    join_status := s.join_status
    predicted_defect := pred
    defect_probability := proba
    actual_defect := s.actual_defect }

/-- Effect of the `INSERT INTO sensor_data` statement on the store. -/
def insertSensorRow (db : DB) (s : SensorReading) (pred : ℤ) (proba : ℚ) : DB :=
  { db with sensor_data := db.sensor_data ++ [mkSensorRow s pred proba] }

/-- Effect of the `UPDATE production_lines SET status = 'Running', ...
WHERE line_name = %s` statement: every row matching the event's line
gets status `Running`, the event's wafer id and a fresh timestamp. -/
def updateLineState (db : DB) (s : SensorReading) (now : Nat) : DB :=
  { db with production_lines := db.production_lines.map (fun r =>
      if r.line_name = s.production_line then
        { r with status := "Running"
                 current_wafer_id := some s.wafer_id
                 last_updated := now }
      else r) }

/-- The `alerts` row built by the `INSERT INTO alerts` statement.

Modelled from the spec: the schema of the `alerts` table (its DDL is
not under `src/`) defaults `acknowledged` to FALSE and `acknowledged_at`
to NULL, per the spec's data model ("Created exactly when a
`PredictionResult.decision` is true ... in the active state") and the
dashboard's `acknowledged = FALSE` query for active alerts; `id` is a
serial column and `created_at` defaults to the insertion time. -/
def mkAlertRow (db : DB) (s : SensorReading) (proba : ℚ) (now : Nat) : AlertRow :=
  { id := db.nextAlertId
    production_line := s.production_line
    wafer_id := s.wafer_id
    alert_message := "Defect detected on " ++ s.production_line ++ " line"
    defect_probability := proba
    created_at := now
    acknowledged := false
    acknowledged_at := none }

/-- Effect of the conditional `INSERT INTO alerts` (lines 177-188):
executed only when `prediction == 1`. -/
def insertAlertIfDefect (db : DB) (s : SensorReading) (pred : ℤ) (proba : ℚ)
    (now : Nat) : DB :=
  if pred = 1 then
    { db with alerts := db.alerts ++ [mkAlertRow db s proba now]
              nextAlertId := db.nextAlertId + 1 }
  else db

/-- Where, if anywhere, an exception is raised inside the transaction of
`store_to_database` (failure injection for the atomicity property). -/
inductive FailPoint
  | atSensorInsert
  | atLineUpdate
  | atAlertInsert
  | atCommit
  | noFail
deriving Repr, DecidableEq

/-- `EdgeGateway.store_to_database`: returns immediately when the
connection handle is `None` (lines 129-130); otherwise executes the
three statements in one transaction and commits; an exception at any
statement or at commit takes the `except` branch, which rolls the
whole transaction back, leaving the committed store unchanged.
`conn` is whether `self.db_conn` is non-`None`. -/
def store_to_database (conn : Bool) (db : DB) (s : SensorReading) (pred : ℤ)
    (proba : ℚ) (now : Nat) (fp : FailPoint) : DB :=
  if conn = false then db
  else if fp = FailPoint.atSensorInsert then db
  else
    let t1 := insertSensorRow db s pred proba
    if fp = FailPoint.atLineUpdate then db
    else
      let t2 := updateLineState t1 s now
      if fp = FailPoint.atAlertInsert ∧ pred = 1 then db
      else
        let t3 := insertAlertIfDefect t2 s pred proba now
        if fp = FailPoint.atCommit then db
        else t3

/-- Per-line counters inside `self.stats['by_line']`. -/
structure LineCounters where
  total : Nat
  defects : Nat
deriving Repr, DecidableEq

/-- The `self.stats` dict of `EdgeGateway`: global counters plus the
three fixed `by_line` entries (Lithography, Etching, Deposition). -/
structure Stats where
  total_processed : Nat
  defects_detected : Nat
  lithography : LineCounters
  etching : LineCounters
  deposition : LineCounters
deriving Repr, DecidableEq

/-- The zeroed statistics built in `EdgeGateway.__init__`. -/
def initStats : Stats :=
  { total_processed := 0
    defects_detected := 0
    lithography := { total := 0, defects := 0 }
    etching := { total := 0, defects := 0 }
    deposition := { total := 0, defects := 0 } }

/-- Whether `line` is a key of the `by_line` dict (a lookup with any
other string raises `KeyError`). -/
def knownLine (line : String) : Bool :=
  line = "Lithography" ∨ line = "Etching" ∨ line = "Deposition"

/-- `self.stats['by_line'][line]['total'] += 1` for a known line. -/
def bumpLineTotal (st : Stats) (line : String) : Stats :=
  if line = "Lithography" then
    { st with lithography := { st.lithography with total := st.lithography.total + 1 } }
  else if line = "Etching" then
    { st with etching := { st.etching with total := st.etching.total + 1 } }
  else if line = "Deposition" then
    { st with deposition := { st.deposition with total := st.deposition.total + 1 } }
  else st

/-- `self.stats['by_line'][line]['defects'] += 1` for a known line. -/
def bumpLineDefects (st : Stats) (line : String) : Stats :=
  if line = "Lithography" then
    { st with lithography := { st.lithography with defects := st.lithography.defects + 1 } }
  else if line = "Etching" then
    { st with etching := { st.etching with defects := st.etching.defects + 1 } }
  else if line = "Deposition" then
    { st with deposition := { st.deposition with defects := st.deposition.defects + 1 } }
  else st

/-- `self.stats['total_processed'] += 1`. -/
def bumpTP (st : Stats) : Stats :=
  { st with total_processed := st.total_processed + 1 }

/-- `self.stats['defects_detected'] += 1`. -/
def bumpDD (st : Stats) : Stats :=
  { st with defects_detected := st.defects_detected + 1 }

/-- Read a line's `total` counter (for stating properties). -/
def lineTotal (st : Stats) (line : String) : Nat :=
  if line = "Lithography" then st.lithography.total
  else if line = "Etching" then st.etching.total
  else if line = "Deposition" then st.deposition.total
  else 0

/-- Read a line's `defects` counter (for stating properties). -/
def lineDefects (st : Stats) (line : String) : Nat :=
  if line = "Lithography" then st.lithography.defects
  else if line = "Etching" then st.etching.defects
  else if line = "Deposition" then st.deposition.defects
  else 0

/-- The in-memory state of the gateway process: the loaded artifact,
whether the database connection succeeded, and the statistics. -/
structure Gateway where
  pkg : ModelPackage
  dbConn : Bool
  stats : Stats

/-- `EdgeGateway.__init__`: loads the artifact fields, attempts the
database connection (`conn` is its outcome: `connect_database` sets
`self.db_conn = None` on failure) and zeroes the statistics.  No
validation of the artifact's feature order is performed. -/
def initGateway (pkg : ModelPackage) (conn : Bool) : Gateway :=
  { pkg := pkg, dbConn := conn, stats := initStats }

/-- `EdgeGateway.on_message`: decode (a `none` payload models a
`json.loads` failure, caught by the outer `except` with no effect),
predict, store, then update statistics.  `total_processed` is bumped
before the `by_line` lookup, so an unknown line leaves it bumped while
the `KeyError` aborts the rest of the handler. -/
def on_message (g : Gateway) (db : DB) (payload : Option SensorReading)
    (now : Nat) (fp : FailPoint) : Gateway × DB :=
  match payload with
  | none => (g, db)
  | some s =>
    let pr := predict_defect g.pkg s
    let db2 := store_to_database g.dbConn db s pr.1 pr.2 now fp
    let st1 := { g.stats with total_processed := g.stats.total_processed + 1 }
    if knownLine s.production_line then
      let st2 := bumpLineTotal st1 s.production_line
      if pr.1 = 1 then
        let st3 := bumpLineDefects
          { st2 with defects_detected := st2.defects_detected + 1 }
          s.production_line
        ({ g with stats := st3 }, db2)
      else ({ g with stats := st2 }, db2)
    else ({ g with stats := st1 }, db2)

/-- A sequence of incoming messages processed by the gateway's MQTT
loop: each element is the decoded payload (or `none` for a malformed
one), its wall-clock tick, and the injected failure point. -/
def processEvents (g : Gateway) (db : DB) :
    List (Option SensorReading × Nat × FailPoint) → Gateway × DB
  | [] => (g, db)
  | e :: rest =>
    let r := on_message g db e.1 e.2.1 e.2.2
    processEvents r.1 r.2 rest

/-- `acknowledge_alert` in `src/dashboard.py` (lines 152-174): when the
connection is up, run `UPDATE alerts SET acknowledged = TRUE,
acknowledged_at = CURRENT_TIMESTAMP WHERE id = %s`, commit, and return
`True` — regardless of how many rows matched.  Returns `False` without
touching the store when the connection is down or the update raised
(`fail`), after a rollback. -/
def acknowledge_alert (conn : Bool) (db : DB) (alert_id : Nat) (now : Nat)
    (fail : Bool) : DB × Bool :=
  if conn = false then (db, false)
  else if fail then (db, false)
  else
    ({ db with alerts := db.alerts.map (fun a =>
        if a.id = alert_id then
          { a with acknowledged := true, acknowledged_at := some now }
        else a) },
     true)

/-! ### Concrete fixtures for witnesses and counterexamples -/

/-- The feature order of the artifact: the twelve keys the pipeline
builds, in the order `predict_defect` assembles them. -/
def featureNamesStd : List String :=
  ["Chamber_Temperature", "Gas_Flow_Rate", "RF_Power", "Etch_Depth",
   "Rotation_Speed", "Vacuum_Pressure", "Stage_Alignment_Error",
   "Vibration_Level", "UV_Exposure_Intensity", "Particle_Count",
   "Tool_Type", "Join_Status"]

/-- A `Tool_Type` label encoder covering the three production lines. -/
def encToolStd : String → Option ℤ := fun t =>
  if t = "Deposition" then some 0
  else if t = "Etching" then some 1
  else if t = "Lithography" then some 2
  else none

/-- A `Join_Status` label encoder with a two-word vocabulary. -/
def encJoinStd : String → Option ℤ := fun j =>
  if j = "Failed" then some 0
  else if j = "Passed" then some 1
  else none

/-- A stub artifact whose model always reports probability 0.92
(above the 0.5 threshold). -/
def pkgHigh : ModelPackage :=
  { encTool := encToolStd
    encJoin := encJoinStd
    feature_names := featureNamesStd
    scale := id
    predictProba := fun _ => some (mkRat 92 100)
    threshold := mkRat 1 2 }

/-- A stub artifact whose model always reports probability 0.10. -/
def pkgLow : ModelPackage :=
  { pkgHigh with predictProba := fun _ => some (mkRat 1 10) }

/-- A stub artifact whose model invocation always fails internally. -/
def pkgInfFail : ModelPackage :=
  { pkgHigh with predictProba := fun _ => none }

/-- A stub artifact whose declared feature order names a feature the
pipeline never builds (artifact/pipeline version skew). -/
def pkgBadOrder : ModelPackage :=
  { pkgHigh with feature_names := ["Missing_Feature"] }

/-- A nominal decoded telemetry event on the Etching line. -/
def s0 : SensorReading :=
  { process_id := "P-001"
    timestamp := "2024-01-01T00:00:00"
    production_line := "Etching"
    wafer_id := "W42"
    chamber_temperature := 450
    gas_flow_rate := 120
    rf_power := 1500
    etch_depth := mkRat 3 2
    rotation_speed := 30
    vacuum_pressure := mkRat 1 1000
    stage_alignment_error := mkRat 1 100
    vibration_level := mkRat 1 10
    uv_exposure_intensity := 85
    particle_count := 12
    join_status := "Passed"
    actual_defect := 0 }

/-- The same event with a `join_status` outside the trained
vocabulary. -/
def sBadJoin : SensorReading :=
  { s0 with join_status := "Borderline" }

/-- The same event with a production-line name outside the trained
vocabulary (and hence also outside the three lines the statistics
dict and the provisioned `production_lines` table know). -/
def sBadLine : SensorReading :=
  { s0 with production_line := "Polishing" }

/-- A freshly provisioned store: one `Idle` row per production line,
no sensor rows, no alerts. -/
def db0 : DB :=
  { sensor_data := []
    production_lines :=
      [{ line_name := "Lithography", status := "Idle", current_wafer_id := none, last_updated := 0 },
       { line_name := "Etching", status := "Idle", current_wafer_id := none, last_updated := 0 },
       { line_name := "Deposition", status := "Idle", current_wafer_id := none, last_updated := 0 }]
    alerts := []
    nextAlertId := 1 }

/-- A store holding one already-acknowledged alert (id 1, acknowledged
at tick 5). -/
def dbAcked : DB :=
  { sensor_data := []
    production_lines := []
    alerts :=
      [{ id := 1
         production_line := "Etching"
         wafer_id := "W42"
         alert_message := "Defect detected on Etching line"
         defect_probability := mkRat 92 100
         created_at := 3
         acknowledged := true
         acknowledged_at := some 5 }]
    nextAlertId := 2 }

/-- The feature vector the pipeline builds from `s0` under the
standard encoders, in the order of `featureNamesStd`. -/
def X0 : List ℚ :=
  [450, 120, 1500, mkRat 3 2, 30, mkRat 1 1000, mkRat 1 100, mkRat 1 10,
   85, 12, 1, 1]

/-- Number of list entries whose payload decoded to an event naming
`line` (the granularity at which `on_message` reaches the `by_line`
counters). -/
def countFor (line : String)
    (evs : List (Option SensorReading × Nat × FailPoint)) : Nat :=
  evs.countP (fun e => match e.1 with
    | some s => s.production_line == line
    | none => false)

/-- Number of list entries whose payload decoded to an event naming
`line` and whose (possibly defaulted) prediction under `pkg` is 1. -/
def countDefectFor (pkg : ModelPackage) (line : String)
    (evs : List (Option SensorReading × Nat × FailPoint)) : Nat :=
  evs.countP (fun e => match e.1 with
    | some s => s.production_line == line && (predict_defect pkg s).1 == 1
    | none => false)

example : predictCore pkgHigh s0 = some (1, mkRat 92 100) := by decide
example : (pkgHigh.feature_names.mapM fun n =>
    (buildFeatures s0 1 1).lookup n) = some X0 := by decide
example : predictCore pkgLow s0 = some (0, mkRat 1 10) := by decide
example : predictCore pkgInfFail s0 = none := by decide
example : predictCore pkgBadOrder s0 = none := by decide
example : predictCore pkgHigh sBadJoin = none := by decide

/-! ### Helper lemmas about the statistics counters -/

theorem total_processed_bumpLineTotal (st : Stats) (l : String) :
    (bumpLineTotal st l).total_processed = st.total_processed := by
  unfold bumpLineTotal
  split_ifs <;> rfl

theorem total_processed_bumpLineDefects (st : Stats) (l : String) :
    (bumpLineDefects st l).total_processed = st.total_processed := by
  unfold bumpLineDefects
  split_ifs <;> rfl

theorem defects_detected_bumpLineTotal (st : Stats) (l : String) :
    (bumpLineTotal st l).defects_detected = st.defects_detected := by
  unfold bumpLineTotal
  split_ifs <;> rfl

theorem defects_detected_bumpLineDefects (st : Stats) (l : String) :
    (bumpLineDefects st l).defects_detected = st.defects_detected := by
  unfold bumpLineDefects
  split_ifs <;> rfl

theorem lineTotal_bumpLineTotal (st : Stats) (l line : String)
    (hl : knownLine l = true) :
    lineTotal (bumpLineTotal st l) line =
      lineTotal st line + (if l = line then 1 else 0) := by
  simp only [knownLine, decide_eq_true_eq] at hl
  rcases hl with h | h | h <;> subst h
  · by_cases h1 : "Lithography" = line
    · subst h1
      simp [bumpLineTotal, lineTotal]
    · simp [bumpLineTotal, lineTotal, h1, Ne.symm h1]
  · by_cases h1 : "Etching" = line
    · subst h1
      simp [bumpLineTotal, lineTotal]
    · simp [bumpLineTotal, lineTotal, h1, Ne.symm h1]
  · by_cases h1 : "Deposition" = line
    · subst h1
      simp [bumpLineTotal, lineTotal]
    · simp [bumpLineTotal, lineTotal, h1, Ne.symm h1]

theorem lineTotal_bumpLineDefects (st : Stats) (l line : String) :
    lineTotal (bumpLineDefects st l) line = lineTotal st line := by
  unfold bumpLineDefects lineTotal
  split_ifs <;> rfl

theorem lineDefects_bumpLineTotal (st : Stats) (l line : String) :
    lineDefects (bumpLineTotal st l) line = lineDefects st line := by
  unfold bumpLineTotal lineDefects
  split_ifs <;> rfl

theorem lineDefects_bumpLineDefects (st : Stats) (l line : String)
    (hl : knownLine l = true) :
    lineDefects (bumpLineDefects st l) line =
      lineDefects st line + (if l = line then 1 else 0) := by
  simp only [knownLine, decide_eq_true_eq] at hl
  rcases hl with h | h | h <;> subst h
  · by_cases h1 : "Lithography" = line
    · subst h1
      simp [bumpLineDefects, lineDefects]
    · simp [bumpLineDefects, lineDefects, h1, Ne.symm h1]
  · by_cases h1 : "Etching" = line
    · subst h1
      simp [bumpLineDefects, lineDefects]
    · simp [bumpLineDefects, lineDefects, h1, Ne.symm h1]
  · by_cases h1 : "Deposition" = line
    · subst h1
      simp [bumpLineDefects, lineDefects]
    · simp [bumpLineDefects, lineDefects, h1, Ne.symm h1]

theorem lineTotal_bumpTP (st : Stats) (line : String) :
    lineTotal (bumpTP st) line = lineTotal st line := by
  unfold bumpTP lineTotal
  split_ifs <;> rfl

theorem lineDefects_bumpTP (st : Stats) (line : String) :
    lineDefects (bumpTP st) line = lineDefects st line := by
  unfold bumpTP lineDefects
  split_ifs <;> rfl

theorem lineTotal_bumpDD (st : Stats) (line : String) :
    lineTotal (bumpDD st) line = lineTotal st line := by
  unfold bumpDD lineTotal
  split_ifs <;> rfl

theorem lineDefects_bumpDD (st : Stats) (line : String) :
    lineDefects (bumpDD st) line = lineDefects st line := by
  unfold bumpDD lineDefects
  split_ifs <;> rfl

theorem total_processed_bumpTP (st : Stats) :
    (bumpTP st).total_processed = st.total_processed + 1 := rfl

theorem total_processed_bumpDD (st : Stats) :
    (bumpDD st).total_processed = st.total_processed := rfl

theorem defects_detected_bumpTP (st : Stats) :
    (bumpTP st).defects_detected = st.defects_detected := rfl

theorem defects_detected_bumpDD (st : Stats) :
    (bumpDD st).defects_detected = st.defects_detected + 1 := rfl

theorem on_message_pkg (g : Gateway) (db : DB) (payload : Option SensorReading)
    (now : Nat) (fp : FailPoint) :
    (on_message g db payload now fp).1.pkg = g.pkg := by
  unfold on_message
  cases payload with
  | none => rfl
  | some s =>
    simp only []
    split_ifs <;> rfl

theorem on_message_dbConn (g : Gateway) (db : DB) (payload : Option SensorReading)
    (now : Nat) (fp : FailPoint) :
    (on_message g db payload now fp).1.dbConn = g.dbConn := by
  unfold on_message
  cases payload with
  | none => rfl
  | some s =>
    simp only []
    split_ifs <;> rfl

/-! ### Helper lemmas about the persistence layer -/

theorem store_to_database_commit (db : DB) (s : SensorReading) (pred : ℤ)
    (proba : ℚ) (now : Nat) :
    store_to_database true db s pred proba now FailPoint.noFail =
      insertAlertIfDefect (updateLineState (insertSensorRow db s pred proba) s now)
        s pred proba now := rfl

theorem production_lines_insertAlertIfDefect (db : DB) (s : SensorReading)
    (pred : ℤ) (proba : ℚ) (now : Nat) :
    (insertAlertIfDefect db s pred proba now).production_lines =
      db.production_lines := by
  unfold insertAlertIfDefect
  split_ifs <;> rfl

theorem alerts_updateLineState (db : DB) (s : SensorReading) (now : Nat) :
    (updateLineState db s now).alerts = db.alerts := rfl

theorem nextAlertId_updateLineState (db : DB) (s : SensorReading) (now : Nat) :
    (updateLineState db s now).nextAlertId = db.nextAlertId := rfl

theorem sensor_data_updateLineState (db : DB) (s : SensorReading) (now : Nat) :
    (updateLineState db s now).sensor_data = db.sensor_data := rfl

theorem sensor_data_insertSensorRow (db : DB) (s : SensorReading) (pred : ℤ)
    (proba : ℚ) :
    (insertSensorRow db s pred proba).sensor_data =
      db.sensor_data ++ [mkSensorRow s pred proba] := rfl

theorem production_lines_insertSensorRow (db : DB) (s : SensorReading)
    (pred : ℤ) (proba : ℚ) :
    (insertSensorRow db s pred proba).production_lines =
      db.production_lines := rfl

theorem alerts_insertSensorRow (db : DB) (s : SensorReading) (pred : ℤ)
    (proba : ℚ) :
    (insertSensorRow db s pred proba).alerts = db.alerts := rfl

theorem list_map_self {α : Type} (l : List α) (f : α → α)
    (h : ∀ a ∈ l, f a = a) : l.map f = l := by
  induction l with
  | nil => rfl
  | cons a t ih =>
    have ht : ∀ x ∈ t, f x = x := fun x hx => h x (List.mem_cons_of_mem a hx)
    rw [List.map_cons, h a (List.mem_cons_self a t), ih ht]

/-! ### Claim theorems -/

/-- C1: for every telemetry event and its prediction, the persistence
operation (`store_to_database`) is atomic: whatever the connection
state and whichever point inside the transaction fails, the resulting
durable store is either exactly the previously committed one (full
rollback, no partial state) or exactly the one with all three logical
writes applied (telemetry insert, line-state update, conditional alert
insert). -/
theorem store_to_database_atomic (conn : Bool) (db : DB) (s : SensorReading)
    (pred : ℤ) (proba : ℚ) (now : Nat) (fp : FailPoint) :
    store_to_database conn db s pred proba now fp = db ∨
    store_to_database conn db s pred proba now fp =
      insertAlertIfDefect (updateLineState (insertSensorRow db s pred proba) s now)
        s pred proba now := by
  unfold store_to_database
  split_ifs <;> first
    | exact Or.inl rfl
    | exact Or.inr rfl

/-- C5: on the committed path, an alert row is appended if and only if
the prediction is 1; the appended row is unacknowledged and carries
the event's production line, wafer id and predicted probability; and
`acknowledge_alert` never touches the `production_lines` table, so
acknowledging an alert never changes a line's status. -/
theorem alert_iff_decision (db : DB) (s : SensorReading) (pred : ℤ)
    (proba : ℚ) (now : Nat) :
    (store_to_database true db s pred proba now FailPoint.noFail).alerts =
      db.alerts ++ (if pred = 1 then [mkAlertRow db s proba now] else []) ∧
    (mkAlertRow db s proba now).acknowledged = false ∧
    (mkAlertRow db s proba now).acknowledged_at = none ∧
    (mkAlertRow db s proba now).production_line = s.production_line ∧
    (mkAlertRow db s proba now).wafer_id = s.wafer_id ∧
    (mkAlertRow db s proba now).defect_probability = proba ∧
    ∀ c d i n f, (acknowledge_alert c d i n f).1.production_lines =
      d.production_lines := by
  refine ⟨?_, rfl, rfl, rfl, rfl, rfl, ?_⟩
  · unfold store_to_database insertAlertIfDefect updateLineState insertSensorRow mkAlertRow
    by_cases h : pred = 1 <;> simp [h]
  · intro c d i n f
    unfold acknowledge_alert
    split_ifs <;> rfl

/-- C9: on the committed path the line-state write sets every
`production_lines` row named by the event's line to status `Running`,
with the event's wafer id and the fresh timestamp; and on every path
(any connection state, any failure point) every row of the resulting
table is either an untouched pre-existing row or has status `Running`
— the pipeline never writes `Idle`, `Stopped` or any other status. -/
theorem line_status_always_running (db : DB) (s : SensorReading) (pred : ℤ)
    (proba : ℚ) (now : Nat) (fp : FailPoint) (conn : Bool) :
    (∀ r ∈ (store_to_database true db s pred proba now
        FailPoint.noFail).production_lines,
      r.line_name = s.production_line →
        r.status = "Running" ∧ r.current_wafer_id = some s.wafer_id ∧
        r.last_updated = now) ∧
    (∀ r ∈ (store_to_database conn db s pred proba now fp).production_lines,
      r ∈ db.production_lines ∨ r.status = "Running") := by
  constructor
  · intro r hr hname
    rw [store_to_database_commit, production_lines_insertAlertIfDefect] at hr
    unfold updateLineState insertSensorRow at hr
    simp only [List.mem_map] at hr
    obtain ⟨a, ha, rfl⟩ := hr
    by_cases h : a.line_name = s.production_line
    · simp [h]
    · simp only [if_neg h] at hname ⊢
      exact absurd hname h
  · intro r hr
    unfold store_to_database at hr
    split_ifs at hr with h1 h2 h3 h4 h5
    · exact Or.inl hr
    · exact Or.inl hr
    · exact Or.inl hr
    · exact Or.inl hr
    · exact Or.inl hr
    · rw [production_lines_insertAlertIfDefect] at hr
      unfold updateLineState insertSensorRow at hr
      simp only [List.mem_map] at hr
      obtain ⟨a, ha, rfl⟩ := hr
      by_cases h : a.line_name = s.production_line
      · right
        simp [h]
      · left
        simpa [h] using ha

/-! ### Helper lemmas about `on_message` -/

theorem on_message_stats (g : Gateway) (db : DB) (s : SensorReading)
    (now : Nat) (fp : FailPoint) :
    (on_message g db (some s) now fp).1.stats =
      (if knownLine s.production_line then
        (if (predict_defect g.pkg s).1 = 1 then
          bumpLineDefects (bumpDD (bumpLineTotal (bumpTP g.stats)
            s.production_line)) s.production_line
        else
          bumpLineTotal (bumpTP g.stats) s.production_line)
      else bumpTP g.stats) ∧
    (on_message g db (some s) now fp).2 =
      store_to_database g.dbConn db s (predict_defect g.pkg s).1
        (predict_defect g.pkg s).2 now fp := by
  by_cases hk : knownLine s.production_line = true <;>
    by_cases hp : (predict_defect g.pkg s).1 = 1 <;>
    simp [on_message, bumpTP, bumpDD, hk, hp]

theorem on_message_total_processed (g : Gateway) (db : DB) (s : SensorReading)
    (now : Nat) (fp : FailPoint) :
    (on_message g db (some s) now fp).1.stats.total_processed =
      g.stats.total_processed + 1 := by
  rw [(on_message_stats g db s now fp).1]
  split_ifs <;>
    simp [total_processed_bumpLineDefects, total_processed_bumpLineTotal,
      total_processed_bumpTP, total_processed_bumpDD]

theorem on_message_lineTotal_any (g : Gateway) (db : DB) (s : SensorReading)
    (now : Nat) (fp : FailPoint) (line : String)
    (hline : knownLine line = true) :
    lineTotal (on_message g db (some s) now fp).1.stats line =
      lineTotal g.stats line +
        (if s.production_line = line then 1 else 0) := by
  rw [(on_message_stats g db s now fp).1]
  by_cases hk : knownLine s.production_line = true
  · rw [if_pos hk]
    by_cases hp : (predict_defect g.pkg s).1 = 1
    · rw [if_pos hp, lineTotal_bumpLineDefects, lineTotal_bumpDD,
        lineTotal_bumpLineTotal _ _ _ hk, lineTotal_bumpTP]
    · rw [if_neg hp, lineTotal_bumpLineTotal _ _ _ hk, lineTotal_bumpTP]
  · rw [if_neg hk, lineTotal_bumpTP]
    have hne : ¬ s.production_line = line := fun he => hk (he ▸ hline)
    rw [if_neg hne]
    simp

theorem on_message_lineDefects_any (g : Gateway) (db : DB) (s : SensorReading)
    (now : Nat) (fp : FailPoint) (line : String)
    (hline : knownLine line = true) :
    lineDefects (on_message g db (some s) now fp).1.stats line =
      lineDefects g.stats line +
        (if s.production_line = line ∧ (predict_defect g.pkg s).1 = 1
         then 1 else 0) := by
  rw [(on_message_stats g db s now fp).1]
  by_cases hk : knownLine s.production_line = true
  · rw [if_pos hk]
    by_cases hp : (predict_defect g.pkg s).1 = 1
    · rw [if_pos hp, lineDefects_bumpLineDefects _ _ _ hk, lineDefects_bumpDD,
        lineDefects_bumpLineTotal, lineDefects_bumpTP]
      by_cases hs : s.production_line = line
      · rw [if_pos hs, if_pos ⟨hs, hp⟩]
      · rw [if_neg hs, if_neg (fun hc => hs hc.1)]
    · rw [if_neg hp, lineDefects_bumpLineTotal, lineDefects_bumpTP,
        if_neg (fun hc => hp hc.2)]
      simp
  · rw [if_neg hk, lineDefects_bumpTP]
    have hne : ¬ s.production_line = line := fun he => hk (he ▸ hline)
    rw [if_neg (fun hc => hne hc.1)]
    simp

theorem on_message_defects_detected (g : Gateway) (db : DB) (s : SensorReading)
    (now : Nat) (fp : FailPoint)
    (hline : knownLine s.production_line = true)
    (hp : (predict_defect g.pkg s).1 = 1) :
    (on_message g db (some s) now fp).1.stats.defects_detected =
      g.stats.defects_detected + 1 := by
  rw [(on_message_stats g db s now fp).1, if_pos hline, if_pos hp,
    defects_detected_bumpLineDefects, defects_detected_bumpDD,
    defects_detected_bumpLineTotal, defects_detected_bumpTP]

/-- C6: for every well-formed telemetry event (one on which the
prediction pipeline succeeds), assuming the artifact's model is a
calibrated classifier (probabilities in `[0,1]`), the returned
probability lies in `[0,1]` and the binary decision equals
`probability >= threshold` exactly, where the threshold is the scalar
stored in the artifact, carried unchanged into the gateway at startup
and never recomputed. -/
theorem predict_probability_decision (pkg : ModelPackage) (s : SensorReading)
    (d : ℤ) (p : ℚ)
    (hcal : ∀ v q, pkg.predictProba v = some q → 0 ≤ q ∧ q ≤ 1)
    (h : predictCore pkg s = some (d, p)) :
    (0 ≤ p ∧ p ≤ 1) ∧ (d = 1 ↔ pkg.threshold ≤ p) ∧
    (d = 0 ↔ ¬ pkg.threshold ≤ p) ∧ predict_defect pkg s = (d, p) ∧
    ∀ conn, (initGateway pkg conn).pkg.threshold = pkg.threshold := by
  have hpd : predict_defect pkg s = (d, p) := by
    unfold predict_defect
    rw [h]
  unfold predictCore at h
  simp only [Option.bind_eq_some, Option.map_eq_some'] at h
  obtain ⟨tool, htool, join, hjoin, X, hX, proba, hp, hdp⟩ := h
  injection hdp with hd hpq
  subst hpq
  subst hd
  refine ⟨hcal _ _ hp, ?_, ?_, hpd, fun conn => rfl⟩
  · by_cases hc : pkg.threshold ≤ proba <;> simp [hc]
  · by_cases hc : pkg.threshold ≤ proba <;> simp [hc]

/-- Witness for C6 at the concrete stub artifact `pkgHigh` (threshold
0.5, model probability 0.92) and the nominal event `s0`. -/
theorem predict_probability_decision_witness :
    ((0:ℚ) ≤ mkRat 92 100 ∧ (mkRat 92 100 : ℚ) ≤ 1) ∧
    ((1:ℤ) = 1 ↔ pkgHigh.threshold ≤ mkRat 92 100) ∧
    ((1:ℤ) = 0 ↔ ¬ pkgHigh.threshold ≤ mkRat 92 100) ∧
    predict_defect pkgHigh s0 = (1, mkRat 92 100) ∧
    (∀ conn, (initGateway pkgHigh conn).pkg.threshold = pkgHigh.threshold) :=
  predict_probability_decision pkgHigh s0 1 (mkRat 92 100)
    (fun v q hq => by
      have hq2 : some (mkRat 92 100) = some q := hq
      cases hq2
      exact ⟨by decide, by decide⟩)
    (by decide)

/-- C8 counterexample: an artifact declaring feature `Missing_Feature`,
which the pipeline never builds, loads at startup without any
validation error (`__init__` only copies the artifact fields and
zeroes the statistics), and on a nominal event the mismatch surfaces
inside per-event prediction, where it is caught and converted to the
default prediction `(0, 0)` — not detected as a fatal configuration
error at startup. -/
theorem feature_mismatch_cex :
    (initGateway pkgBadOrder true).pkg.feature_names = ["Missing_Feature"] ∧
    (initGateway pkgBadOrder true).stats = initStats ∧
    predictCore pkgBadOrder s0 = none ∧
    predict_defect pkgBadOrder s0 = (0, 0) ∧
    (on_message (initGateway pkgBadOrder true) db0 (some s0) 7
      FailPoint.noFail).2.sensor_data = [mkSensorRow s0 0 0] :=
  ⟨rfl, rfl, by decide, by decide, by decide⟩

/-- C8 amended: startup (`__init__`) performs no validation of the
artifact's feature order — it accepts any artifact unchanged — and a
feature-order mismatch (any event on which the feature build fails)
is handled per event: the exception is caught inside `predict_defect`
and replaced by the default prediction `(0, 0)`. -/
theorem feature_mismatch_handled_per_event (pkg : ModelPackage) (conn : Bool)
    (s : SensorReading) (hmis : predictCore pkg s = none) :
    (initGateway pkg conn).pkg = pkg ∧
    (initGateway pkg conn).stats = initStats ∧
    predict_defect pkg s = (0, 0) := by
  refine ⟨rfl, rfl, ?_⟩
  unfold predict_defect
  rw [hmis]

/-- Witness for the amended C8 at the mismatched artifact
`pkgBadOrder` and the nominal event `s0`. -/
theorem feature_mismatch_handled_per_event_witness :
    (initGateway pkgBadOrder true).pkg = pkgBadOrder ∧
    (initGateway pkgBadOrder true).stats = initStats ∧
    predict_defect pkgBadOrder s0 = (0, 0) :=
  feature_mismatch_handled_per_event pkgBadOrder true s0 (by decide)

/-- C2 counterexample: with an artifact whose model invocation always
fails internally (`pkgInfFail`), the nominal event `s0` is NOT
dropped: the failure is converted to the default "no defect"
prediction `(0, 0)`, a telemetry row with `predicted_defect = 0` is
committed to `sensor_data`, the line state is updated, and the
statistics counters are incremented. -/
theorem inference_failure_not_dropped_cex :
    predict_defect pkgInfFail s0 = (0, 0) ∧
    (on_message (initGateway pkgInfFail true) db0 (some s0) 7
      FailPoint.noFail).2.sensor_data = [mkSensorRow s0 0 0] ∧
    (on_message (initGateway pkgInfFail true) db0 (some s0) 7
      FailPoint.noFail).2.production_lines.map (fun r => r.status) =
      ["Idle", "Running", "Idle"] ∧
    (on_message (initGateway pkgInfFail true) db0 (some s0) 7
      FailPoint.noFail).1.stats.total_processed = 1 ∧
    (on_message (initGateway pkgInfFail true) db0 (some s0) 7
      FailPoint.noFail).1.stats.etching.total = 1 :=
  ⟨by decide, by decide, by decide, by decide, by decide⟩

/-- C2 amended: when model invocation fails internally (encoders and
feature build succeed, `predict_proba` raises), the failure is caught
inside `predict_defect` and silently converted to the default
"no defect" decision `(0, 0.0)`; the event is not dropped — on a
connected, non-failing store the telemetry row is persisted with
`predicted_defect = 0`, the line state is updated, no alert is
created, and the statistics are incremented. -/
theorem inference_failure_defaulted (pkg : ModelPackage) (g : Gateway)
    (db : DB) (s : SensorReading) (now : Nat) (t j : ℤ) (X : List ℚ)
    (ht : pkg.encTool s.production_line = some t)
    (hj : pkg.encJoin s.join_status = some j)
    (hX : (pkg.feature_names.mapM fun n =>
      (buildFeatures s t j).lookup n) = some X)
    (hfail : pkg.predictProba (pkg.scale X) = none)
    (hg : g.pkg = pkg) (hconn : g.dbConn = true)
    (hline : knownLine s.production_line = true) :
    predict_defect pkg s = (0, 0) ∧
    (on_message g db (some s) now FailPoint.noFail).2 =
      updateLineState (insertSensorRow db s 0 0) s now ∧
    (on_message g db (some s) now FailPoint.noFail).2.alerts = db.alerts ∧
    (on_message g db (some s) now FailPoint.noFail).1.stats.total_processed =
      g.stats.total_processed + 1 ∧
    lineTotal (on_message g db (some s) now FailPoint.noFail).1.stats
      s.production_line = lineTotal g.stats s.production_line + 1 := by
  subst hg
  have hcore : predictCore g.pkg s = none := by
    unfold predictCore
    rw [ht, Option.some_bind, hj, Option.some_bind, hX, Option.some_bind, hfail]
    rfl
  have hpd : predict_defect g.pkg s = (0, 0) := by
    unfold predict_defect
    rw [hcore]
  have hdb : (on_message g db (some s) now FailPoint.noFail).2 =
      updateLineState (insertSensorRow db s 0 0) s now := by
    rw [(on_message_stats g db s now FailPoint.noFail).2, hpd, hconn,
      store_to_database_commit]
    unfold insertAlertIfDefect
    norm_num
  refine ⟨hpd, hdb, ?_, ?_, ?_⟩
  · rw [hdb, alerts_updateLineState]
    rfl
  · exact on_message_total_processed g db s now FailPoint.noFail
  · rw [on_message_lineTotal_any g db s now FailPoint.noFail
      s.production_line hline]
    simp

/-- Witness for the amended C2 at the always-failing stub artifact
`pkgInfFail`, the nominal event `s0`, the fresh store `db0`. -/
theorem inference_failure_defaulted_witness :
    predict_defect pkgInfFail s0 = (0, 0) ∧
    (on_message (initGateway pkgInfFail true) db0 (some s0) 7
      FailPoint.noFail).2 = updateLineState (insertSensorRow db0 s0 0 0) s0 7 ∧
    (on_message (initGateway pkgInfFail true) db0 (some s0) 7
      FailPoint.noFail).2.alerts = db0.alerts ∧
    (on_message (initGateway pkgInfFail true) db0 (some s0) 7
      FailPoint.noFail).1.stats.total_processed =
      (initGateway pkgInfFail true).stats.total_processed + 1 ∧
    lineTotal (on_message (initGateway pkgInfFail true) db0 (some s0) 7
      FailPoint.noFail).1.stats s0.production_line =
      lineTotal (initGateway pkgInfFail true).stats s0.production_line + 1 :=
  inference_failure_defaulted pkgInfFail (initGateway pkgInfFail true) db0 s0 7
    1 1 X0 (by decide) (by decide) (by decide) (by decide) rfl rfl (by decide)

/-- C3 counterexample: the event `sBadJoin` carries `join_status`
"Borderline", outside the trained vocabulary of `pkgHigh`.  Instead of
being dropped, the encoder failure is caught inside `predict_defect`
and defaulted to `(0, 0)`; the event is committed to `sensor_data`
with `predicted_defect = 0` and the Etching statistics counters are
incremented. -/
theorem unknown_category_not_dropped_cex :
    pkgHigh.encJoin sBadJoin.join_status = none ∧
    predict_defect pkgHigh sBadJoin = (0, 0) ∧
    (on_message (initGateway pkgHigh true) db0 (some sBadJoin) 3
      FailPoint.noFail).2.sensor_data = [mkSensorRow sBadJoin 0 0] ∧
    (on_message (initGateway pkgHigh true) db0 (some sBadJoin) 3
      FailPoint.noFail).1.stats.etching.total = 1 :=
  ⟨by decide, by decide, by decide, by decide⟩

/-- C3 amended: an event whose categorical value is outside the
trained vocabulary does raise inside the transform (the encoder
yields no code), but the exception is caught inside `predict_defect`
and silently defaulted to the "no defect" prediction `(0, 0.0)`; the
event is not dropped — on a connected, non-failing store its
telemetry row is committed.  For an unseen `join_status` on a known
production line (event `s`), the line state is also updated and the
line statistics incremented.  For an unseen production-line name
(event `s2`), no `production_lines` row matches the update (the table
holds only the known lines), no alert is created, and the statistics
`KeyError` — raised after the global increment — leaves every
per-line counter untouched while `total_processed` is still
incremented. -/
theorem unknown_category_defaulted (pkg : ModelPackage) (g : Gateway)
    (db db2 : DB) (s s2 : SensorReading) (now now2 : Nat)
    (hg : g.pkg = pkg) (hconn : g.dbConn = true)
    (hj : pkg.encJoin s.join_status = none)
    (hline : knownLine s.production_line = true)
    (ht2 : pkg.encTool s2.production_line = none)
    (hline2 : knownLine s2.production_line = false)
    (hrows : ∀ r ∈ db2.production_lines, knownLine r.line_name = true) :
    predict_defect pkg s = (0, 0) ∧
    (on_message g db (some s) now FailPoint.noFail).2 =
      updateLineState (insertSensorRow db s 0 0) s now ∧
    (on_message g db (some s) now FailPoint.noFail).2.alerts = db.alerts ∧
    (on_message g db (some s) now FailPoint.noFail).1.stats.total_processed =
      g.stats.total_processed + 1 ∧
    lineTotal (on_message g db (some s) now FailPoint.noFail).1.stats
      s.production_line = lineTotal g.stats s.production_line + 1 ∧
    predict_defect pkg s2 = (0, 0) ∧
    (on_message g db2 (some s2) now2 FailPoint.noFail).2.sensor_data =
      db2.sensor_data ++ [mkSensorRow s2 0 0] ∧
    (on_message g db2 (some s2) now2 FailPoint.noFail).2.production_lines =
      db2.production_lines ∧
    (on_message g db2 (some s2) now2 FailPoint.noFail).2.alerts = db2.alerts ∧
    (on_message g db2 (some s2) now2 FailPoint.noFail).1.stats =
      bumpTP g.stats := by
  subst hg
  have hcore : predictCore g.pkg s = none := by
    unfold predictCore
    cases htool : g.pkg.encTool s.production_line with
    | none => rfl
    | some t => rw [Option.some_bind, hj]; rfl
  have hpd : predict_defect g.pkg s = (0, 0) := by
    unfold predict_defect
    rw [hcore]
  have hdb : (on_message g db (some s) now FailPoint.noFail).2 =
      updateLineState (insertSensorRow db s 0 0) s now := by
    rw [(on_message_stats g db s now FailPoint.noFail).2, hpd, hconn,
      store_to_database_commit]
    unfold insertAlertIfDefect
    norm_num
  have hcore2 : predictCore g.pkg s2 = none := by
    unfold predictCore
    rw [ht2]
    rfl
  have hpd2 : predict_defect g.pkg s2 = (0, 0) := by
    unfold predict_defect
    rw [hcore2]
  have hdb2 : (on_message g db2 (some s2) now2 FailPoint.noFail).2 =
      updateLineState (insertSensorRow db2 s2 0 0) s2 now2 := by
    rw [(on_message_stats g db2 s2 now2 FailPoint.noFail).2, hpd2, hconn,
      store_to_database_commit]
    unfold insertAlertIfDefect
    norm_num
  refine ⟨hpd, hdb, ?_, ?_, ?_, hpd2, ?_, ?_, ?_, ?_⟩
  · rw [hdb, alerts_updateLineState, alerts_insertSensorRow]
  · exact on_message_total_processed g db s now FailPoint.noFail
  · rw [on_message_lineTotal_any g db s now FailPoint.noFail
      s.production_line hline]
    simp
  · rw [hdb2, sensor_data_updateLineState, sensor_data_insertSensorRow]
  · rw [hdb2]
    have hrepr : (updateLineState (insertSensorRow db2 s2 0 0) s2
        now2).production_lines =
        db2.production_lines.map (fun r =>
          if r.line_name = s2.production_line then
            { r with status := "Running"
                     current_wafer_id := some s2.wafer_id
                     last_updated := now2 }
          else r) := rfl
    rw [hrepr]
    apply list_map_self
    intro r hr
    have hkr := hrows r hr
    have hne : ¬ r.line_name = s2.production_line := by
      intro he
      rw [he, hline2] at hkr
      simp at hkr
    exact if_neg hne
  · rw [hdb2, alerts_updateLineState, alerts_insertSensorRow]
  · rw [(on_message_stats g db2 s2 now2 FailPoint.noFail).1,
      if_neg (by simp [hline2])]

/-- Witness for the amended C3 at the standard artifact `pkgHigh`, the
out-of-vocabulary `join_status` event `sBadJoin` and the
out-of-vocabulary production-line event `sBadLine`. -/
theorem unknown_category_defaulted_witness :
    predict_defect pkgHigh sBadJoin = (0, 0) ∧
    (on_message (initGateway pkgHigh true) db0 (some sBadJoin) 3
      FailPoint.noFail).2 =
      updateLineState (insertSensorRow db0 sBadJoin 0 0) sBadJoin 3 ∧
    (on_message (initGateway pkgHigh true) db0 (some sBadJoin) 3
      FailPoint.noFail).2.alerts = db0.alerts ∧
    (on_message (initGateway pkgHigh true) db0 (some sBadJoin) 3
      FailPoint.noFail).1.stats.total_processed =
      (initGateway pkgHigh true).stats.total_processed + 1 ∧
    lineTotal (on_message (initGateway pkgHigh true) db0 (some sBadJoin) 3
      FailPoint.noFail).1.stats sBadJoin.production_line =
      lineTotal (initGateway pkgHigh true).stats sBadJoin.production_line + 1 ∧
    predict_defect pkgHigh sBadLine = (0, 0) ∧
    (on_message (initGateway pkgHigh true) db0 (some sBadLine) 4
      FailPoint.noFail).2.sensor_data =
      db0.sensor_data ++ [mkSensorRow sBadLine 0 0] ∧
    (on_message (initGateway pkgHigh true) db0 (some sBadLine) 4
      FailPoint.noFail).2.production_lines = db0.production_lines ∧
    (on_message (initGateway pkgHigh true) db0 (some sBadLine) 4
      FailPoint.noFail).2.alerts = db0.alerts ∧
    (on_message (initGateway pkgHigh true) db0 (some sBadLine) 4
      FailPoint.noFail).1.stats = bumpTP (initGateway pkgHigh true).stats :=
  unknown_category_defaulted pkgHigh (initGateway pkgHigh true) db0 db0
    sBadJoin sBadLine 3 4 rfl rfl (by decide) (by decide) (by decide)
    (by decide) (by decide)

/-- C7 counterexample: on the store `dbAcked`, whose only alert (id 1)
is already acknowledged at tick 5, re-acknowledging id 1 at tick 10
returns success (`True`, no `AlreadyAcknowledgedError`) and CHANGES
state: `acknowledged_at` is refreshed from `some 5` to `some 10`.
Acknowledging the nonexistent id 99 also returns success (`True`, no
`AlertNotFoundError`). -/
theorem acknowledge_alert_cex :
    (acknowledge_alert true dbAcked 1 10 false).2 = true ∧
    (acknowledge_alert true dbAcked 1 10 false).1 ≠ dbAcked ∧
    (acknowledge_alert true dbAcked 1 10 false).1.alerts.map
      (fun a => a.acknowledged_at) = [some 10] ∧
    acknowledge_alert true dbAcked 99 10 false = (dbAcked, true) :=
  ⟨by decide, by decide, by decide, by decide⟩

/-- C7 amended: `acknowledge_alert` reports no
`AlertNotFoundError`/`AlreadyAcknowledgedError` — with a live
connection and a successful commit it returns `True` for every alert
id.  Acknowledging a nonexistent id is a silent no-op (store
unchanged, success returned).  Acknowledging an already-acknowledged
id succeeds again and refreshes `acknowledged_at` to the current
timestamp — a state change.  Rows not matching the id are untouched,
and an acknowledged alert is never re-opened (every unacknowledged
row of the result was already present unacknowledged). -/
theorem acknowledge_alert_semantics (db : DB) (alert_id now : Nat) :
    (acknowledge_alert true db alert_id now false).2 = true ∧
    ((∀ a ∈ db.alerts, a.id ≠ alert_id) →
      acknowledge_alert true db alert_id now false = (db, true)) ∧
    (∀ b ∈ (acknowledge_alert true db alert_id now false).1.alerts,
      (b.id = alert_id → b.acknowledged = true ∧ b.acknowledged_at = some now) ∧
      (b.id ≠ alert_id → b ∈ db.alerts) ∧
      (b.acknowledged = false → b ∈ db.alerts)) := by
  refine ⟨rfl, ?_, ?_⟩
  · intro hnone
    unfold acknowledge_alert
    norm_num
    have hmap : db.alerts.map (fun a =>
        if a.id = alert_id then
          { a with acknowledged := true, acknowledged_at := some now }
        else a) = db.alerts :=
      list_map_self _ _ (fun a ha => if_neg (hnone a ha))
    rw [hmap]
  · intro b hb
    have hb2 : b ∈ db.alerts.map (fun a =>
        if a.id = alert_id then
          { a with acknowledged := true, acknowledged_at := some now }
        else a) := hb
    rw [List.mem_map] at hb2
    obtain ⟨a, ha, rfl⟩ := hb2
    by_cases h : a.id = alert_id
    · rw [if_pos h]
      refine ⟨fun _ => ⟨rfl, rfl⟩, fun hne => absurd h hne, fun hf => ?_⟩
      exact absurd hf (by simp)
    · rw [if_neg h]
      exact ⟨fun he => absurd he h, fun _ => ha, fun _ => ha⟩

/-- Witness for the amended C7: acknowledging the nonexistent id 99 on
`dbAcked` is a silent success. -/
theorem acknowledge_alert_semantics_witness :
    acknowledge_alert true dbAcked 99 10 false = (dbAcked, true) :=
  (acknowledge_alert_semantics dbAcked 99 10).2.1 (by decide)

/-- C10: when the database connection handle is `None` (failed startup
connect), `store_to_database` returns normally at once — no write, no
error signalled — while `on_message` still increments the line's
`totalProcessed` (and, when the decision is 1, both defect counters),
so the in-memory statistics diverge from the untouched durable
store. -/
theorem no_connection_stats_diverge (g : Gateway) (db : DB)
    (s : SensorReading) (now : Nat) (fp : FailPoint)
    (hconn : g.dbConn = false) (hline : knownLine s.production_line = true) :
    (∀ pred proba, store_to_database g.dbConn db s pred proba now fp = db) ∧
    (on_message g db (some s) now fp).2 = db ∧
    (on_message g db (some s) now fp).1.stats.total_processed =
      g.stats.total_processed + 1 ∧
    lineTotal (on_message g db (some s) now fp).1.stats s.production_line =
      lineTotal g.stats s.production_line + 1 ∧
    ((predict_defect g.pkg s).1 = 1 →
      (on_message g db (some s) now fp).1.stats.defects_detected =
        g.stats.defects_detected + 1 ∧
      lineDefects (on_message g db (some s) now fp).1.stats
        s.production_line = lineDefects g.stats s.production_line + 1) := by
  have hstore : ∀ pred proba,
      store_to_database g.dbConn db s pred proba now fp = db := by
    intro pred proba
    unfold store_to_database
    rw [hconn]
    norm_num
  refine ⟨hstore, ?_, ?_, ?_, ?_⟩
  · rw [(on_message_stats g db s now fp).2, hstore]
  · exact on_message_total_processed g db s now fp
  · rw [on_message_lineTotal_any g db s now fp s.production_line hline]
    simp
  · intro hp
    refine ⟨on_message_defects_detected g db s now fp hline hp, ?_⟩
    rw [on_message_lineDefects_any g db s now fp s.production_line hline,
      if_pos ⟨rfl, hp⟩]

/-- Witness for C10 at a gateway whose startup connect failed
(`dbConn = false`), the defect-predicting artifact `pkgHigh` and the
nominal event `s0`: the store stays `db0` while all four counters are
bumped. -/
theorem no_connection_stats_diverge_witness :
    (∀ pred proba, store_to_database (initGateway pkgHigh false).dbConn db0 s0
      pred proba 7 FailPoint.noFail = db0) ∧
    (on_message (initGateway pkgHigh false) db0 (some s0) 7
      FailPoint.noFail).2 = db0 ∧
    (on_message (initGateway pkgHigh false) db0 (some s0) 7
      FailPoint.noFail).1.stats.total_processed =
      (initGateway pkgHigh false).stats.total_processed + 1 ∧
    lineTotal (on_message (initGateway pkgHigh false) db0 (some s0) 7
      FailPoint.noFail).1.stats s0.production_line =
      lineTotal (initGateway pkgHigh false).stats s0.production_line + 1 ∧
    ((predict_defect (initGateway pkgHigh false).pkg s0).1 = 1 →
      (on_message (initGateway pkgHigh false) db0 (some s0) 7
        FailPoint.noFail).1.stats.defects_detected =
        (initGateway pkgHigh false).stats.defects_detected + 1 ∧
      lineDefects (on_message (initGateway pkgHigh false) db0 (some s0) 7
        FailPoint.noFail).1.stats s0.production_line =
        lineDefects (initGateway pkgHigh false).stats s0.production_line + 1) :=
  no_connection_stats_diverge (initGateway pkgHigh false) db0 s0 7
    FailPoint.noFail rfl (by decide)

/-- C4 counterexample: one nominal event processed while the database
connection is down: persistence writes nothing (the store is
unchanged, so the count of successfully persisted events for Etching
is 0), yet the Etching `total` counter and the global
`total_processed` both reach 1 — the counters do not equal the count
of fully successful pipeline runs. -/
theorem counters_not_only_successful_cex :
    (processEvents (initGateway pkgLow false) db0
      [(some s0, 3, FailPoint.noFail)]).2 = db0 ∧
    (processEvents (initGateway pkgLow false) db0
      [(some s0, 3, FailPoint.noFail)]).1.stats.etching.total = 1 ∧
    (processEvents (initGateway pkgLow false) db0
      [(some s0, 3, FailPoint.noFail)]).1.stats.total_processed = 1 :=
  ⟨by decide, by decide, by decide⟩

/-- C4 amended: for every known production line and every message
sequence, the line's `total` counter equals its initial value plus the
number of events that decoded successfully and name that line —
regardless of whether prediction or persistence succeeded — and the
line's `defects` counter equals its initial value plus the number of
such events whose (possibly defaulted) prediction is 1.  The counters
count decoded events, not fully successful pipeline runs. -/
theorem line_counters_count_decoded (g : Gateway) (db : DB)
    (evs : List (Option SensorReading × Nat × FailPoint)) (line : String)
    (hline : knownLine line = true) :
    lineTotal (processEvents g db evs).1.stats line =
      lineTotal g.stats line + countFor line evs ∧
    lineDefects (processEvents g db evs).1.stats line =
      lineDefects g.stats line + countDefectFor g.pkg line evs := by
  induction evs generalizing g db with
  | nil =>
    simp [processEvents, countFor, countDefectFor]
  | cons e rest ih =>
    obtain ⟨p, n, f⟩ := e
    cases p with
    | none =>
      have hstep : processEvents g db ((none, n, f) :: rest) =
          processEvents g db rest := rfl
      have hc : countFor line ((none, n, f) :: rest) = countFor line rest := by
        simp [countFor, List.countP_cons]
      have hd : countDefectFor g.pkg line ((none, n, f) :: rest) =
          countDefectFor g.pkg line rest := by
        simp [countDefectFor, List.countP_cons]
      rw [hstep, hc, hd]
      exact ih g db
    | some s =>
      have hstep : processEvents g db ((some s, n, f) :: rest) =
          processEvents (on_message g db (some s) n f).1
            (on_message g db (some s) n f).2 rest := rfl
      obtain ⟨ihT, ihD⟩ := ih (on_message g db (some s) n f).1
        (on_message g db (some s) n f).2
      rw [on_message_pkg g db (some s) n f] at ihD
      constructor
      · have hc : countFor line ((some s, n, f) :: rest) =
            countFor line rest +
              (if s.production_line = line then 1 else 0) := by
          simp [countFor, List.countP_cons]
        rw [hstep, ihT, on_message_lineTotal_any g db s n f line hline, hc]
        by_cases hs : s.production_line = line <;> simp [hs] <;> omega
      · have hd : countDefectFor g.pkg line ((some s, n, f) :: rest) =
            countDefectFor g.pkg line rest +
              (if s.production_line = line ∧ (predict_defect g.pkg s).1 = 1
               then 1 else 0) := by
          simp [countDefectFor, List.countP_cons]
        rw [hstep, ihD, on_message_lineDefects_any g db s n f line hline, hd]
        by_cases hs : s.production_line = line <;>
          by_cases hp : (predict_defect g.pkg s).1 = 1 <;>
          simp [hs, hp] <;> omega

/-- Witness for the amended C4: a two-event run (one defect-predicting
event on Etching, one malformed payload) under a connected gateway. -/
theorem line_counters_count_decoded_witness :
    lineTotal (processEvents (initGateway pkgHigh true) db0
        [(some s0, 3, FailPoint.noFail), (none, 4, FailPoint.noFail)]).1.stats
        "Etching" =
      lineTotal (initGateway pkgHigh true).stats "Etching" +
        countFor "Etching"
          [(some s0, 3, FailPoint.noFail), (none, 4, FailPoint.noFail)] ∧
    lineDefects (processEvents (initGateway pkgHigh true) db0
        [(some s0, 3, FailPoint.noFail), (none, 4, FailPoint.noFail)]).1.stats
        "Etching" =
      lineDefects (initGateway pkgHigh true).stats "Etching" +
        countDefectFor (initGateway pkgHigh true).pkg "Etching"
          [(some s0, 3, FailPoint.noFail), (none, 4, FailPoint.noFail)] :=
  line_counters_count_decoded (initGateway pkgHigh true) db0
    [(some s0, 3, FailPoint.noFail), (none, 4, FailPoint.noFail)] "Etching"
    (by decide)

/-- Witness for C9 at the committed store of the nominal event `s0`
over the fresh store `db0`: the Etching row of the result carries
status `Running`, wafer `W42` and tick 7. -/
theorem line_status_always_running_witness :
    ({ line_name := "Etching", status := "Running",
       current_wafer_id := some "W42", last_updated := 7 } : LineRow).status =
      "Running" ∧
    ({ line_name := "Etching", status := "Running",
       current_wafer_id := some "W42", last_updated := 7 } : LineRow).current_wafer_id =
      some s0.wafer_id ∧
    ({ line_name := "Etching", status := "Running",
       current_wafer_id := some "W42", last_updated := 7 } : LineRow).last_updated = 7 :=
  (line_status_always_running db0 s0 1 (mkRat 92 100) 7 FailPoint.noFail true).1
    { line_name := "Etching", status := "Running",
      current_wafer_id := some "W42", last_updated := 7 }
    (by decide) (by decide)
